import Mathlib

/-!
Shallow embedding of scripts/kimi-run.py (class KimiRunner and main).

The script supervises one child process: it resolves the tool, launches it
with merged stdout/stderr, drains the stream in a poll loop under a
wall-clock deadline, performs two-stage termination on timeout, and reports
an exit code plus an output buffer framed by marker lines.

The nondeterministic environment of one run (what the OS would deliver at
each loop iteration: elapsed wall time, stream readability, the line that
readline returns, the poll result, and whether a KeyboardInterrupt fires)
is reified as a schedule, a list of per-iteration observations. The loop
body is then a pure function of the schedule, translated line by line from
the source.
-/

/-- Signals the runner can send to the child: process.terminate() and
process.kill() in the source. -/
inductive Sig where
  | term : Sig
  | kill : Sig
deriving DecidableEq

/-- One iteration of the read/poll loop, as observed from the environment:
whether a KeyboardInterrupt preempts this iteration, the elapsed seconds
since start_time, whether select reports the stream readable, the line that
readline would return (empty string when nothing is delivered), and the
result of process.poll (some rc once the child has exited). -/
structure IterInput where
  interrupt : Bool
  elapsed : Nat
  readable : Bool
  line : String
  poll : Option Int
deriving DecidableEq

/-- Result of the drain loop of KimiRunner, lines 88-127 of the source:
the returned code, the chunks appended to self.output_buffer, the chunks
written to sys.stderr by the tee, the signals sent to the child in order,
and whether the loop actually returned (false when the schedule ran out
while the loop would have kept polling). -/
structure LoopResult where
  code : Int
  buffer : List String
  mirror : List String
  signals : List Sig
  finished : Bool
deriving DecidableEq

/-- The chunk an iteration contributes: lines 100-107 of the source append
the line to the buffer and mirror it only when select reported the stream
readable and readline returned a nonempty string. -/
def readsChunk (it : IterInput) : List String :=
  if it.readable ∧ it.line ≠ "" then [it.line] else []

/-- The final drain on the normal exit path, lines 112-117: the remaining
output read after poll reports an exit code, appended only when nonempty. -/
def drainRem (rem : String) : List String :=
  if rem ≠ "" then [rem] else []

/-- Grace interval between terminate and the kill check: time.sleep(1) at
line 94 of the source. -/
def grace_seconds : Nat := 1

/-- Timeout of the which probe: timeout=5 at line 58 of the source. -/
def which_timeout_seconds : Nat := 5

/-- The drain loop of KimiRunner, lines 88-127 of the source,
as a function of the schedule. Parameters: timeout is self.timeout;
aliveAfterGrace tells whether process.poll() would still be None after the
one-second grace sleep on the timeout path (line 95); rem is what
process.stdout.read() would return on the final drain (line 113).
Per iteration, in source order: a pending KeyboardInterrupt is caught
(lines 123-127: terminate, return 130); the deadline is checked
(lines 90-97: on expiry terminate, sleep the grace interval, kill only if
still alive, return 124); an available nonempty line is appended to the
buffer and mirrored to stderr (lines 100-107); then poll is checked
(lines 109-118: once the child has exited, drain the remaining output and
return the real exit code). -/
def runLoop (timeout : Nat) (aliveAfterGrace : Bool) (rem : String) :
    List IterInput → LoopResult
  | [] => ⟨0, [], [], [], false⟩
  | it :: rest =>
    if it.interrupt then
      ⟨130, [], [], [Sig.term], true⟩
    else if timeout < it.elapsed then
      ⟨124, [], [],
        if aliveAfterGrace then [Sig.term, Sig.kill] else [Sig.term], true⟩
    else
      match it.poll with
      | some rc =>
          ⟨rc, readsChunk it ++ drainRem rem, readsChunk it ++ drainRem rem,
            [], true⟩
      | none =>
          let r := runLoop timeout aliveAfterGrace rem rest
          ⟨r.code, readsChunk it ++ r.buffer, readsChunk it ++ r.mirror,
            r.signals, r.finished⟩

/-- Environment of command resolution: an override location value and
whether it points to an existing regular file (present in the process
environment but, as the embedding of check_kimi_cli shows, never consulted
by the source), and the outcome of subprocess.run of which kimi
(some rc for its returncode, none when an exception, including the 5s
timeout expiry, was raised). -/
structure ResolveEnv where
  overridePath : Option String
  overrideIsFile : Bool
  whichExit : Option Int
deriving DecidableEq

/-- KimiRunner._check_kimi_cli, lines 52-62 of the source: run which kimi
with a 5 second timeout and report returncode == 0; any exception yields
False. -/
def check_kimi_cli (env : ResolveEnv) : Bool :=
  match env.whichExit with
  | some rc => decide (rc = 0)
  | none => false

/-- A call of the resolution check viewed as a state transformer: the
source method reads the environment and mutates nothing, so the post-call
environment is returned unchanged next to the Boolean outcome. -/
def check_kimi_cli_call (env : ResolveEnv) : Bool × ResolveEnv :=
  (check_kimi_cli env, env)

/-- Resolution as section 4.1 of the specification words it, for
comparison against check_kimi_cli: an override value that is set and
points to an existing regular file is used first with found = true;
otherwise the PATH lookup decides. -/
def specCommandResolver (env : ResolveEnv) : Bool :=
  match env.overridePath with
  | some _ => if env.overrideIsFile then true else check_kimi_cli env
  | none => check_kimi_cli env

/-- Filesystem paths, abstracted as an absolute flag plus segments. -/
structure SPath where
  absolute : Bool
  segments : List String
deriving DecidableEq

/-- Path(workdir).resolve() at line 29 of the source: an already absolute
path is kept, a relative one is anchored at the current directory. -/
def SPath.resolve (cwd p : SPath) : SPath :=
  if p.absolute then p else ⟨cwd.absolute, cwd.segments ++ p.segments⟩

/-- Abstract filesystem state: the set of existing directories and which
directory creations the OS would permit. -/
structure FS where
  dirs : List SPath
  mkdirAllowed : SPath → Bool

/-- KimiRunner.__init__, lines 27-37 of the source, restricted to the
working-directory handling: resolve the given directory against the
current directory, then self.workdir.mkdir(parents=True, exist_ok=True).
An existing directory is accepted unchanged (exist_ok); creation of a
missing one either extends the filesystem or raises PermissionError. -/
def KimiRunner.init (fs : FS) (cwd wd : SPath) : Except String (SPath × FS) :=
  let w := SPath.resolve cwd wd
  if w ∈ fs.dirs then Except.ok (w, fs)
  else if fs.mkdirAllowed w then Except.ok (w, ⟨w :: fs.dirs, fs.mkdirAllowed⟩)
  else Except.error "PermissionError"

/-- Outcome of the subprocess.Popen call at lines 77-85: the child started
(with the drain-loop schedule, the final-drain remainder and the
grace-window liveness describing the rest of the run), or Popen raised
FileNotFoundError, or some other exception was raised. -/
inductive Launch where
  | ok : List IterInput → String → Bool → Launch
  | fileNotFound : Launch
  | fail : Launch

/-- Observable result of KimiRunner.run: the returned code, whether the
mock path was taken, whether a child subprocess was actually started, the
working directory passed to Popen as cwd when it was, and the diagnostic
line printed to stderr on the classified failure paths. -/
structure RunResult where
  code : Int
  usedMock : Bool
  subprocessStarted : Bool
  launchedCwd : Option SPath
  diag : Option String

/-- KimiRunner.run together with _run_kimi_cli, lines 39-130 of the
source: when _check_kimi_cli fails, print the [INFO] line and fall back to
_mock_kimi_execution, which returns 0 and starts no subprocess; otherwise
start the child (Popen with cwd=self.workdir) and enter the drain loop.
FileNotFoundError from Popen prints the [ERROR] line and likewise falls
back to the mock, returning 0; any other exception returns 1. -/
def KimiRunner.run (env : ResolveEnv) (workdir : SPath) (timeout : Nat)
    (launch : Launch) : RunResult :=
  if check_kimi_cli env then
    match launch with
    | Launch.ok sched rem alive =>
        ⟨(runLoop timeout alive rem sched).code, false, true, some workdir,
          none⟩
    | Launch.fileNotFound =>
        ⟨0, true, false, none, some "[ERROR] Failed to start kimi process"⟩
    | Launch.fail =>
        ⟨1, false, false, none, some "[ERROR] Unexpected error"⟩
  else
    ⟨0, true, false, none,
      some "[INFO] Kimi CLI not found, switching to mock mode"⟩

/-- KimiRunner.get_output, lines 212-214 of the source: the buffer joined
into one string. -/
def get_output (buffer : List String) : String :=
  String.join buffer

/-- Exit status of the whole script when the working-directory setup in
__init__ raises: the exception propagates out of main uncaught, so the
interpreter exits with status 1; otherwise the code returned by run is
passed to sys.exit. -/
def main_exit_code (fs : FS) (cwd wd : SPath) (env : ResolveEnv)
    (timeout : Nat) (launch : Launch) : Int :=
  match KimiRunner.init fs cwd wd with
  | Except.error _ => 1
  | Except.ok (w, _) => (KimiRunner.run env w timeout launch).code

/-- Literal start marker printed by main at line 263 of the source. -/
def KIMI_OUTPUT_START : String := "[KIMI_OUTPUT_START]"

/-- Literal end marker printed by main at line 265 of the source. -/
def KIMI_OUTPUT_END : String := "[KIMI_OUTPUT_END]"

/-- The lines printed to stdout by main after run returns, lines 260-265
of the source: a separator, the start marker, the accumulated output, the
end marker. -/
def main_result_lines (output : String) : List String :=
  ["\n" ++ String.mk (List.replicate 50 '='),
    KIMI_OUTPUT_START, output, KIMI_OUTPUT_END]

/-- Tail of main, lines 258-267: the exit code from run is returned
unchanged while the framed output is printed, whatever the outcome was. -/
def main_tail (code : Int) (output : String) : Int × List String :=
  (code, main_result_lines output)

/-- A schedule iteration on which the loop neither returns nor reads an
exit status: no interrupt, deadline not yet exceeded, poll still None. -/
def IterInput.normal (timeout : Nat) (it : IterInput) : Prop :=
  it.interrupt = false ∧ it.elapsed ≤ timeout ∧ it.poll = none

theorem runLoop_cons_normal (timeout : Nat) (alive : Bool) (rem : String)
    (it : IterInput) (rest : List IterInput)
    (h : it.normal timeout) :
    runLoop timeout alive rem (it :: rest) =
      { runLoop timeout alive rem rest with
        buffer := readsChunk it ++ (runLoop timeout alive rem rest).buffer,
        mirror := readsChunk it ++ (runLoop timeout alive rem rest).mirror } := by
  obtain ⟨h1, h2, h3⟩ := h
  simp only [runLoop, h1, h3, Bool.false_eq_true, if_false,
    Nat.not_lt.mpr h2, if_false]

theorem runLoop_append_normal (timeout : Nat) (alive : Bool) (rem : String)
    (pre : List IterInput)
    (hpre : ∀ j ∈ pre, j.normal timeout) (rest : List IterInput) :
    runLoop timeout alive rem (pre ++ rest) =
      { runLoop timeout alive rem rest with
        buffer := (pre.map readsChunk).flatten ++
          (runLoop timeout alive rem rest).buffer,
        mirror := (pre.map readsChunk).flatten ++
          (runLoop timeout alive rem rest).mirror } := by
  induction pre with
  | nil => simp
  | cons j pre ih =>
      have hj := hpre j (List.mem_cons_self j pre)
      have ih2 := ih (fun k hk => hpre k (List.mem_cons_of_mem j hk))
      rw [List.cons_append, runLoop_cons_normal timeout alive rem j _ hj, ih2]
      simp [List.append_assoc]

theorem runLoop_interrupt_head (timeout : Nat) (alive : Bool) (rem : String)
    (it : IterInput) (rest : List IterInput) (h : it.interrupt = true) :
    runLoop timeout alive rem (it :: rest) = ⟨130, [], [], [Sig.term], true⟩ := by
  simp only [runLoop, h, if_true]

theorem runLoop_timeout_head (timeout : Nat) (alive : Bool) (rem : String)
    (it : IterInput) (rest : List IterInput)
    (h1 : it.interrupt = false) (h2 : timeout < it.elapsed) :
    runLoop timeout alive rem (it :: rest) =
      ⟨124, [], [],
        if alive then [Sig.term, Sig.kill] else [Sig.term], true⟩ := by
  simp only [runLoop, h1, Bool.false_eq_true, if_false, h2, if_true]

theorem runLoop_exit_head (timeout : Nat) (alive : Bool) (rem : String)
    (it : IterInput) (rest : List IterInput) (rc : Int)
    (h1 : it.interrupt = false) (h2 : it.elapsed ≤ timeout)
    (h3 : it.poll = some rc) :
    runLoop timeout alive rem (it :: rest) =
      ⟨rc, readsChunk it ++ drainRem rem, readsChunk it ++ drainRem rem,
        [], true⟩ := by
  simp only [runLoop, h1, Bool.false_eq_true, if_false,
    Nat.not_lt.mpr h2, if_false, h3]

/-- C5: tee invariant of the drain loop. For every schedule (hence for
every prefix of a run, since a prefix is itself a schedule), the list of
chunks appended to the output buffer is identical, element for element and
in order, to the list of chunks mirrored to the live stderr channel:
lines 105-106 and 115-116 of the source perform the two writes together
on each path that records a chunk. -/
theorem c5_tee_buffer_eq_mirror (timeout : Nat) (alive : Bool) (rem : String)
    (sched : List IterInput) :
    (runLoop timeout alive rem sched).buffer =
      (runLoop timeout alive rem sched).mirror := by
  induction sched with
  | nil => rfl
  | cons it rest ih =>
      simp only [runLoop]
      split
      · rfl
      · split
        · rfl
        · split
          · rfl
          · simpa using ih

/-- C2: timeout path. When every earlier iteration was normal (no
interrupt, deadline not exceeded, child still running) and the deadline is
then observed exceeded, the loop returns 124 and terminates the child in
two stages: the graceful terminate is sent first, and the forced kill is
sent exactly when the child is still alive after the one-second grace
sleep; a kill is never the first signal. The 124 propagates unchanged
through KimiRunner.run. -/
theorem c2_timeout_two_stage (timeout : Nat) (alive : Bool) (rem : String)
    (pre : List IterInput) (it : IterInput) (rest : List IterInput)
    (hpre : ∀ j ∈ pre, j.normal timeout)
    (h1 : it.interrupt = false) (h2 : timeout < it.elapsed) :
    (runLoop timeout alive rem (pre ++ it :: rest)).code = 124 ∧
    (runLoop timeout alive rem (pre ++ it :: rest)).signals =
      (if alive then [Sig.term, Sig.kill] else [Sig.term]) ∧
    (runLoop timeout alive rem (pre ++ it :: rest)).signals.head? =
      some Sig.term ∧
    grace_seconds ≤ 2 ∧
    (∀ env w, check_kimi_cli env = true →
      (KimiRunner.run env w timeout
        (Launch.ok (pre ++ it :: rest) rem alive)).code = 124) := by
  have hrw := runLoop_append_normal timeout alive rem pre hpre (it :: rest)
  have hh := runLoop_timeout_head timeout alive rem it rest h1 h2
  rw [hrw, hh]
  refine ⟨rfl, rfl, ?_, by decide, ?_⟩
  · cases alive <;> rfl
  · intro env w henv
    simp only [KimiRunner.run, henv, if_true, hrw, hh]

/-- C10: frame property of the timeout path. Under the same hypotheses as
the timeout theorem, the final buffer and mirror consist exactly of the
chunks read on the earlier normal iterations: neither the line that became
readable on the expiring iteration nor the undrained remainder rem is ever
appended or mirrored, because lines 90-97 of the source return 124 before
the read at line 103 and the final drain at lines 112-117 runs only on the
normal-exit path. -/
theorem c10_timeout_no_final_drain (timeout : Nat) (alive : Bool)
    (rem : String) (pre : List IterInput) (it : IterInput)
    (rest : List IterInput)
    (hpre : ∀ j ∈ pre, j.normal timeout)
    (h1 : it.interrupt = false) (h2 : timeout < it.elapsed) :
    (runLoop timeout alive rem (pre ++ it :: rest)).buffer =
      (pre.map readsChunk).flatten ∧
    (runLoop timeout alive rem (pre ++ it :: rest)).mirror =
      (pre.map readsChunk).flatten := by
  rw [runLoop_append_normal timeout alive rem pre hpre (it :: rest),
    runLoop_timeout_head timeout alive rem it rest h1 h2]
  exact ⟨by simp, by simp⟩

/-- C3: normal completion. When every earlier iteration was normal and the
child is then observed exited (poll = some rc) on an iteration within the
deadline and without interrupt, the loop returns the child exit code rc
unchanged, and the buffer is exactly the in-order concatenation of every
chunk read, followed by the chunk read on the final iteration and the
final drain of the remainder: no chunk is lost, duplicated or reordered,
and get_output joins them in the same order. The code rc propagates
unchanged through KimiRunner.run. -/
theorem c3_normal_exit_code_and_output (timeout : Nat) (alive : Bool)
    (rem : String) (pre : List IterInput) (it : IterInput)
    (rest : List IterInput) (rc : Int)
    (hpre : ∀ j ∈ pre, j.normal timeout)
    (h1 : it.interrupt = false) (h2 : it.elapsed ≤ timeout)
    (h3 : it.poll = some rc) :
    (runLoop timeout alive rem (pre ++ it :: rest)).code = rc ∧
    (runLoop timeout alive rem (pre ++ it :: rest)).buffer =
      (pre.map readsChunk).flatten ++ readsChunk it ++ drainRem rem ∧
    get_output (runLoop timeout alive rem (pre ++ it :: rest)).buffer =
      String.join
        ((pre.map readsChunk).flatten ++ readsChunk it ++ drainRem rem) ∧
    (∀ env w, check_kimi_cli env = true →
      (KimiRunner.run env w timeout
        (Launch.ok (pre ++ it :: rest) rem alive)).code = rc) := by
  have hrw := runLoop_append_normal timeout alive rem pre hpre (it :: rest)
  have hh := runLoop_exit_head timeout alive rem it rest rc h1 h2 h3
  rw [hrw, hh]
  refine ⟨rfl, by simp, by simp [get_output, List.append_assoc], ?_⟩
  intro env w henv
  simp only [KimiRunner.run, henv, if_true, hrw, hh]

/-- C4 counterexample: the claim asserts that the interrupt path performs
the same graceful-then-forced two-stage termination as the timeout path.
On a concrete run where the child survives the grace window
(aliveAfterGrace = true), the interrupt path returns 130 but sends no kill
at all (lines 123-127 of the source call only process.terminate), while
the timeout path on the identical configuration sends terminate then kill:
the two paths terminate differently, refuting the claim as stated. -/
theorem c4_counterexample :
    (runLoop 5 true "" [⟨true, 20, false, "", none⟩]).code = 130 ∧
    Sig.kill ∉ (runLoop 5 true "" [⟨true, 20, false, "", none⟩]).signals ∧
    (runLoop 5 true "" [⟨false, 20, false, "", none⟩]).signals =
      [Sig.term, Sig.kill] := by
  decide

/-- C4 amended: a run interrupted mid-execution returns 130 and never 124,
even when the elapsed time at the interrupt also exceeds the timeout
(it.elapsed is unconstrained here, because the KeyboardInterrupt handler
at lines 123-127 preempts the deadline check); however the interrupt path
sends only the graceful terminate signal and never a forced kill, so only
the first stage of the two-stage termination is performed. The 130
propagates unchanged through KimiRunner.run. -/
theorem c4_interrupt_returns_130 (timeout : Nat) (alive : Bool)
    (rem : String) (pre : List IterInput) (it : IterInput)
    (rest : List IterInput)
    (hpre : ∀ j ∈ pre, j.normal timeout) (h1 : it.interrupt = true) :
    (runLoop timeout alive rem (pre ++ it :: rest)).code = 130 ∧
    (runLoop timeout alive rem (pre ++ it :: rest)).code ≠ 124 ∧
    (runLoop timeout alive rem (pre ++ it :: rest)).signals = [Sig.term] ∧
    Sig.kill ∉ (runLoop timeout alive rem (pre ++ it :: rest)).signals ∧
    (∀ env w, check_kimi_cli env = true →
      (KimiRunner.run env w timeout
        (Launch.ok (pre ++ it :: rest) rem alive)).code = 130) := by
  have hrw := runLoop_append_normal timeout alive rem pre hpre (it :: rest)
  have hh := runLoop_interrupt_head timeout alive rem it rest h1
  rw [hrw, hh]
  refine ⟨rfl, ((by decide : ¬ (130 : Int) = 124)),
    rfl, ((by decide : Sig.kill ∉ [Sig.term])), ?_⟩
  intro env w henv
  simp only [KimiRunner.run, henv, if_true, hrw, hh]

/-- Witness for C2: a concrete run with timeout 1 whose single iteration
observes elapsed 2 while the child survives the grace window: the loop
returns 124 and sends terminate then kill, in that order. -/
theorem c2_witness :
    (runLoop 1 true "" [⟨false, 2, false, "", none⟩]).code = 124 ∧
    (runLoop 1 true "" [⟨false, 2, false, "", none⟩]).signals =
      [Sig.term, Sig.kill] := by
  have h := c2_timeout_two_stage 1 true "" [] ⟨false, 2, false, "", none⟩ []
    (by intro j hj; exact absurd hj (List.not_mem_nil j)) rfl (by decide)
  exact ⟨h.1, by simpa using h.2.1⟩

/-- Witness for C3: a concrete run that reads two lines and drains a
remainder, ending with the child exit code 7 and the exact concatenation
of the three chunks. -/
theorem c3_witness :
    (runLoop 10 false "c" [⟨false, 0, true, "a\n", none⟩,
      ⟨false, 1, true, "b\n", some 7⟩]).code = 7 ∧
    (runLoop 10 false "c" [⟨false, 0, true, "a\n", none⟩,
      ⟨false, 1, true, "b\n", some 7⟩]).buffer = ["a\n", "b\n", "c"] ∧
    get_output (runLoop 10 false "c" [⟨false, 0, true, "a\n", none⟩,
      ⟨false, 1, true, "b\n", some 7⟩]).buffer = "a\nb\nc" := by
  have h := c3_normal_exit_code_and_output 10 false "c"
    [⟨false, 0, true, "a\n", none⟩] ⟨false, 1, true, "b\n", some 7⟩ [] 7
    (by
      intro j hj
      rw [List.mem_singleton] at hj
      subst hj
      exact ⟨rfl, by decide, rfl⟩)
    rfl (by decide) rfl
  exact ⟨h.1, h.2.1.trans (by decide), h.2.2.1.trans (by decide)⟩

/-- Witness for C4 at its amended form: a concrete interrupted run whose
elapsed time 50 far exceeds the timeout 3 still returns 130, with the
graceful terminate as the only signal sent. -/
theorem c4_witness :
    (runLoop 3 true "" [⟨true, 50, false, "", none⟩]).code = 130 ∧
    (runLoop 3 true "" [⟨true, 50, false, "", none⟩]).signals =
      [Sig.term] := by
  have h := c4_interrupt_returns_130 3 true "" [] ⟨true, 50, false, "", none⟩
    [] (by intro j hj; exact absurd hj (List.not_mem_nil j)) rfl
  exact ⟨h.1, h.2.2.1⟩

/-- Witness for C10: a concrete timed-out run in which one line was read
before the deadline, a second line was already readable on the expiring
iteration and the pipe still held the remainder pending: only the first
line is in the buffer; the readable line and the remainder are dropped. -/
theorem c10_witness :
    (runLoop 5 false "pending" [⟨false, 0, true, "seen", none⟩,
      ⟨false, 9, true, "lost", none⟩]).buffer = ["seen"] ∧
    (runLoop 5 false "pending" [⟨false, 0, true, "seen", none⟩,
      ⟨false, 9, true, "lost", none⟩]).mirror = ["seen"] := by
  have h := c10_timeout_no_final_drain 5 false "pending"
    [⟨false, 0, true, "seen", none⟩] ⟨false, 9, true, "lost", none⟩ []
    (by
      intro j hj
      rw [List.mem_singleton] at hj
      subst hj
      exact ⟨rfl, by decide, rfl⟩)
    rfl (by decide)
  exact ⟨h.1.trans (by decide), h.2.trans (by decide)⟩

theorem SPath.resolve_absolute (cwd wd : SPath) (h : cwd.absolute = true) :
    (SPath.resolve cwd wd).absolute = true := by
  unfold SPath.resolve
  split
  · next hp => exact hp
  · exact h

/-- C1 counterexample: with no override set and the which probe failing
(returncode 1), run returns 0 through the mock fallback of lines 46-48 of
the source, not the claimed 127; and even when the probe succeeded but the
executable vanished before launch (FileNotFoundError from Popen,
lines 120-122), run again falls back to the mock and returns 0, never
127. -/
theorem c1_counterexample :
    (KimiRunner.run ⟨none, false, some 1⟩ ⟨true, []⟩ 3600
      (Launch.ok [] "" false)).code = 0 ∧
    (KimiRunner.run ⟨none, false, some 1⟩ ⟨true, []⟩ 3600
      (Launch.ok [] "" false)).code ≠ 127 ∧
    (KimiRunner.run ⟨none, false, some 0⟩ ⟨true, []⟩ 3600
      Launch.fileNotFound).code = 0 := by
  decide

/-- C1 amended: when the tool binary is not found, run starts no
subprocess and does not return 127: it prints the distinct [INFO]
diagnostic and falls back to mock execution, returning 0; likewise, when
the resolved executable fails to start (FileNotFoundError at launch), run
prints the distinct [ERROR] diagnostic and falls back to mock execution,
returning 0 with no subprocess running. -/
theorem c1_not_found_mock_fallback (env : ResolveEnv) (w : SPath)
    (timeout : Nat) (launch : Launch)
    (h : check_kimi_cli env = false) :
    (KimiRunner.run env w timeout launch).code = 0 ∧
    (KimiRunner.run env w timeout launch).usedMock = true ∧
    (KimiRunner.run env w timeout launch).subprocessStarted = false ∧
    (KimiRunner.run env w timeout launch).diag =
      some "[INFO] Kimi CLI not found, switching to mock mode" ∧
    (∀ env2 w2 t2, check_kimi_cli env2 = true →
      (KimiRunner.run env2 w2 t2 Launch.fileNotFound).code = 0 ∧
      (KimiRunner.run env2 w2 t2 Launch.fileNotFound).usedMock = true ∧
      (KimiRunner.run env2 w2 t2 Launch.fileNotFound).subprocessStarted =
        false ∧
      (KimiRunner.run env2 w2 t2 Launch.fileNotFound).diag =
        some "[ERROR] Failed to start kimi process") := by
  have hb : KimiRunner.run env w timeout launch =
      ⟨0, true, false, none,
        some "[INFO] Kimi CLI not found, switching to mock mode"⟩ := by
    simp only [KimiRunner.run, h, Bool.false_eq_true, if_false]
  rw [hb]
  refine ⟨rfl, rfl, rfl, rfl, ?_⟩
  intro env2 w2 t2 h2
  have hb2 : KimiRunner.run env2 w2 t2 Launch.fileNotFound =
      ⟨0, true, false, none,
        some "[ERROR] Failed to start kimi process"⟩ := by
    simp only [KimiRunner.run, h2, if_true]
  rw [hb2]
  exact ⟨rfl, rfl, rfl, rfl⟩

/-- Witness for C1 at its amended form: concrete environments for each of
the two fallback paths. -/
theorem c1_witness :
    (KimiRunner.run ⟨none, false, some 1⟩ ⟨true, []⟩ 3600
      (Launch.ok [] "" false)).usedMock = true ∧
    (KimiRunner.run ⟨none, false, some 1⟩ ⟨true, []⟩ 3600
      (Launch.ok [] "" false)).subprocessStarted = false ∧
    (KimiRunner.run ⟨none, false, some 0⟩ ⟨true, []⟩ 3600
      Launch.fileNotFound).code = 0 := by
  have h := c1_not_found_mock_fallback ⟨none, false, some 1⟩ ⟨true, []⟩ 3600
    (Launch.ok [] "" false) (by decide)
  exact ⟨h.2.1, h.2.2.1,
    (h.2.2.2.2 ⟨none, false, some 0⟩ ⟨true, []⟩ 3600 (by decide)).1⟩

/-- C6: output framing. Whatever exit code the run produced, the lines
main prints to stdout contain the start marker, the full accumulated
output and the end marker as three consecutive lines in that order, with
nothing after the end marker, and the exit code passes through main
unchanged. -/
theorem c6_output_framing (code : Int) (output : String) :
    (∃ pre, (main_tail code output).2 =
      pre ++ [KIMI_OUTPUT_START, output, KIMI_OUTPUT_END]) ∧
    (main_tail code output).1 = code :=
  ⟨⟨["\n" ++ String.mk (List.replicate 50 '=')], rfl⟩, rfl⟩

/-- C7: working-directory contract. When the current directory is
absolute, a successful __init__ yields an absolute resolved working
directory that exists in the resulting filesystem, and every started
child is launched with exactly that directory as cwd; when mkdir raises
instead, the script exits with status 1 (the generic internal error),
never with the not-found code 127. -/
theorem c7_workdir_resolved_created (fs : FS) (cwd wd : SPath)
    (env : ResolveEnv) (timeout : Nat)
    (hcwd : cwd.absolute = true) :
    (∀ w fs2, KimiRunner.init fs cwd wd = Except.ok (w, fs2) →
      w.absolute = true ∧ w ∈ fs2.dirs ∧
      (∀ sched rem alive, check_kimi_cli env = true →
        (KimiRunner.run env w timeout
          (Launch.ok sched rem alive)).launchedCwd = some w)) ∧
    (∀ e, KimiRunner.init fs cwd wd = Except.error e →
      ∀ launch, main_exit_code fs cwd wd env timeout launch = 1 ∧
        main_exit_code fs cwd wd env timeout launch ≠ 127) := by
  constructor
  · intro w fs2 hok
    by_cases hmem : SPath.resolve cwd wd ∈ fs.dirs
    · simp only [KimiRunner.init, if_pos hmem, Except.ok.injEq,
        Prod.mk.injEq] at hok
      obtain ⟨hw, hfs⟩ := hok
      subst hw
      subst hfs
      refine ⟨SPath.resolve_absolute cwd wd hcwd, hmem, ?_⟩
      intro sched rem alive henv
      simp only [KimiRunner.run, henv, if_true]
    · by_cases hmk : fs.mkdirAllowed (SPath.resolve cwd wd) = true
      · simp only [KimiRunner.init, if_neg hmem, hmk, if_true,
          Except.ok.injEq, Prod.mk.injEq] at hok
        obtain ⟨hw, hfs⟩ := hok
        subst hw
        subst hfs
        refine ⟨SPath.resolve_absolute cwd wd hcwd,
          List.mem_cons_self _ _, ?_⟩
        intro sched rem alive henv
        simp only [KimiRunner.run, henv, if_true]
      · simp only [KimiRunner.init, if_neg hmem, hmk, Bool.false_eq_true,
          if_false] at hok
        exact Except.noConfusion hok
  · intro e herr launch
    have hm : main_exit_code fs cwd wd env timeout launch = 1 := by
      simp only [main_exit_code, herr]
    rw [hm]
    exact ⟨rfl, (by decide : ¬ (1 : Int) = 127)⟩

/-- Witness for C7: a concrete relative working directory resolved
against an absolute current directory, once on a filesystem permitting
the creation and once on one denying it. -/
theorem c7_witness :
    (SPath.resolve ⟨true, ["home"]⟩ ⟨false, ["proj"]⟩).absolute = true ∧
    main_exit_code ⟨[], fun _ => false⟩ ⟨true, ["home"]⟩ ⟨false, ["proj"]⟩
      ⟨none, false, some 0⟩ 3600 Launch.fileNotFound = 1 := by
  have h1 := (c7_workdir_resolved_created ⟨[], fun _ => true⟩
    ⟨true, ["home"]⟩ ⟨false, ["proj"]⟩ ⟨none, false, some 0⟩ 3600 rfl).1
    ⟨true, ["home", "proj"]⟩ ⟨[⟨true, ["home", "proj"]⟩], fun _ => true⟩ rfl
  have h2 := (c7_workdir_resolved_created ⟨[], fun _ => false⟩
    ⟨true, ["home"]⟩ ⟨false, ["proj"]⟩ ⟨none, false, some 0⟩ 3600 rfl).2
    "PermissionError" rfl Launch.fileNotFound
  exact ⟨h1.1, h2.1⟩

/-- C8 counterexample: an environment whose override value is set and
points to an existing regular file while the which probe fails. The claim
says resolution reports found; check_kimi_cli (lines 52-62 of the source)
never reads the override and reports not found, disagreeing with the
specification resolver at this input. -/
theorem c8_counterexample :
    check_kimi_cli ⟨some "/opt/kimi", true, some 1⟩ = false ∧
    specCommandResolver ⟨some "/opt/kimi", true, some 1⟩ = true ∧
    check_kimi_cli ⟨some "/opt/kimi", true, some 1⟩ ≠
      specCommandResolver ⟨some "/opt/kimi", true, some 1⟩ := by
  decide

/-- C8 amended: command resolution performs only the PATH lookup, a which
probe bounded by a 5 second timeout: the result ignores any override
value entirely (it depends only on the probe outcome), it is true exactly
when which exits 0, and a clean not-found, including an exception or the
probe timeout, is the normal result false rather than a raised error. -/
theorem c8_path_lookup_only (e1 e2 : ResolveEnv)
    (h : e1.whichExit = e2.whichExit) :
    check_kimi_cli e1 = check_kimi_cli e2 ∧
    (check_kimi_cli e1 = true ↔ e1.whichExit = some 0) ∧
    which_timeout_seconds = 5 := by
  refine ⟨?_, ?_, rfl⟩
  · unfold check_kimi_cli
    rw [h]
  · cases hx : e1.whichExit with
    | none => simp [check_kimi_cli, hx]
    | some rc => simp [check_kimi_cli, hx]

/-- Witness for C8 at its amended form: two environments differing only
in their override values give the same resolution result, found here
because which exits 0. -/
theorem c8_witness :
    check_kimi_cli ⟨some "/opt/kimi", true, some 0⟩ =
      check_kimi_cli ⟨none, false, some 0⟩ ∧
    (check_kimi_cli ⟨some "/opt/kimi", true, some 0⟩ = true ↔
      (⟨some "/opt/kimi", true, some 0⟩ : ResolveEnv).whichExit = some 0) := by
  have h := c8_path_lookup_only ⟨some "/opt/kimi", true, some 0⟩
    ⟨none, false, some 0⟩ rfl
  exact ⟨h.1, h.2.1⟩

/-- C9: idempotence of resolution. A resolution call leaves the
environment unchanged, so two successive calls under the same environment
state return the identical found result. -/
theorem c9_resolution_idempotent (env : ResolveEnv) :
    (check_kimi_cli_call ((check_kimi_cli_call env).2)).1 =
      (check_kimi_cli_call env).1 ∧
    (check_kimi_cli_call env).2 = env :=
  ⟨rfl, rfl⟩
